import Mathlib

/-!
# Verification of the POS tax engine

Shallow embedding of `backend/app/utils/tax_engine.py`.

Python `Decimal` values are modelled as rationals (`ℚ`).  The engine's only
rounding primitive, `Decimal.quantize(Decimal('0.01'), rounding=ROUND_HALF_UP)`,
is modelled exactly: round to the nearest multiple of `1/100`, ties away from
zero (that is what `ROUND_HALF_UP` means for the `decimal` module).  `Decimal`
division is modelled as exact rational division; the 28-significant-digit
context rounding of the `decimal` module is far below the minor-unit
granularity at which every result of the engine is quantized.
-/

namespace TaxEngine

/-- Round a rational to the nearest integer, ties away from zero
(`decimal.ROUND_HALF_UP`). -/
def roundHalfUpInt (q : ℚ) : ℤ :=
  if q < 0 then -⌊-q + 1/2⌋ else ⌊q + 1/2⌋

/-- `TaxEngine._round_currency`: round to 2 decimal places using
`ROUND_HALF_UP`. -/
def round_currency (value : ℚ) : ℚ :=
  (roundHalfUpInt (value * 100) : ℚ) / 100

/-- `split_type` of a tax group: `'GST_50_50' | 'NO_SPLIT'`. -/
inductive SplitType where
  | GST_50_50
  | NO_SPLIT
deriving DecidableEq, Repr

/-- `TaxGroupConfig`: configuration for a tax group. -/
structure TaxGroupConfig where
  name : String
  total_rate : ℚ
  split_type : SplitType
  is_tax_inclusive : Bool
deriving DecidableEq, Repr

/-- `LineItemTaxResult`: result of tax calculation for a single line item. -/
structure LineItemTaxResult where
  taxable_value : ℚ
  tax_amount : ℚ
  cgst_amount : ℚ
  sgst_amount : ℚ
  line_total : ℚ
deriving DecidableEq, Repr

/-- `BillSummary`: summary of tax calculations for an entire bill. -/
structure BillSummary where
  subtotal : ℚ
  total_tax : ℚ
  total_cgst : ℚ
  total_sgst : ℚ
  total_amount : ℚ
  service_charge_amount : ℚ
deriving DecidableEq, Repr

/-- `TaxEngine._split_tax`: split a tax amount into CGST and SGST. -/
def split_tax (tax_amount : ℚ) (split_type : SplitType) : ℚ × ℚ :=
  match split_type with
  | .GST_50_50 =>
      let half := tax_amount / 2
      let cgst := round_currency half
      let sgst := tax_amount - cgst
      (cgst, sgst)
  | .NO_SPLIT =>
      (tax_amount, 0)

/-- Common tail of `TaxEngine.calculate_line_item`: split the tax, reconcile
`line_total` against `taxable_value + tax_amount`, and build the result
record (the final `_round_currency` on `line_total` included). -/
def finish_line_item (taxable_value tax_amount line_total : ℚ)
    (split_type : SplitType) : LineItemTaxResult :=
  let p := split_tax tax_amount split_type
  let calculated_total := taxable_value + tax_amount
  let line_total :=
    if 1/100 < |calculated_total - line_total| then calculated_total
    else line_total
  ⟨taxable_value, tax_amount, p.1, p.2, round_currency line_total⟩

/-- `TaxEngine.calculate_line_item`: tax breakdown for a single line item.
`raise ValueError` is modelled as `Except.error`. -/
def calculate_line_item (unit_price : ℚ) (quantity : ℤ)
    (tax_group : TaxGroupConfig) : Except String LineItemTaxResult :=
  if quantity ≤ 0 then
    .error "Quantity must be greater than 0"
  else if tax_group.total_rate < 0 then
    .error "Tax rate cannot be negative"
  else
    let unit_price := round_currency unit_price
    if tax_group.is_tax_inclusive then
      let line_total := round_currency (unit_price * (quantity : ℚ))
      if tax_group.total_rate = 0 then
        .ok (finish_line_item line_total 0 line_total tax_group.split_type)
      else
        let tax_multiplier := 1 + tax_group.total_rate / 100
        let taxable_value := round_currency (line_total / tax_multiplier)
        let tax_amount := round_currency (line_total - taxable_value)
        .ok (finish_line_item taxable_value tax_amount line_total
              tax_group.split_type)
    else
      let taxable_value := round_currency (unit_price * (quantity : ℚ))
      if tax_group.total_rate = 0 then
        .ok (finish_line_item taxable_value 0 taxable_value
              tax_group.split_type)
      else
        let tax_amount :=
          round_currency (taxable_value * (tax_group.total_rate / 100))
        let line_total := round_currency (taxable_value + tax_amount)
        .ok (finish_line_item taxable_value tax_amount line_total
              tax_group.split_type)

/-- Common tail of `TaxEngine.generate_bill_summary` (its steps 4-6): total
tax, balanced CGST/SGST re-split from the aggregate total, and final total. -/
def finish_bill_summary (item_subtotal item_tax service_charge_amount gst : ℚ) :
    BillSummary :=
  let total_tax := round_currency (item_tax + gst)
  let total_cgst := round_currency (total_tax / 2)
  let total_sgst := total_tax - total_cgst
  let total_amount :=
    round_currency (item_subtotal + service_charge_amount + total_tax)
  ⟨item_subtotal, total_tax, total_cgst, total_sgst, total_amount,
   service_charge_amount⟩

/-- `TaxEngine.generate_bill_summary`: aggregate line items into a bill
summary with optional service charge.  `raise ValueError` is modelled as
`Except.error`. -/
def generate_bill_summary (line_items : List LineItemTaxResult)
    (service_charge_enabled : Bool := false)
    (service_charge_rate : ℚ := 0)
    (service_charge_tax_group : Option TaxGroupConfig := none) :
    Except String BillSummary :=
  if line_items = [] then
    .ok ⟨0, 0, 0, 0, 0, 0⟩
  else
    let item_subtotal :=
      round_currency (line_items.map LineItemTaxResult.taxable_value).sum
    let item_tax :=
      round_currency (line_items.map LineItemTaxResult.tax_amount).sum
    let service_charge_amount :=
      if service_charge_enabled = true ∧ 0 < service_charge_rate then
        round_currency (item_subtotal * (service_charge_rate / 100))
      else 0
    let gst_on_service_charge : Except String ℚ :=
      if 0 < service_charge_amount then
        match service_charge_tax_group with
        | none =>
            .error "Service charge tax group is required when service charge is enabled. SERVICE_CHARGE_GST tax group must be configured."
        | some sc_group =>
            if sc_group.is_tax_inclusive then
              .error "Service charge GST must be exclusive. SERVICE_CHARGE_GST tax group must have is_tax_inclusive=false"
            else
              match calculate_line_item service_charge_amount 1 sc_group with
              | .error e => .error e
              | .ok sc_tax_result => .ok sc_tax_result.tax_amount
      else .ok 0
    match gst_on_service_charge with
    | .error e => .error e
    | .ok gst =>
        .ok (finish_bill_summary item_subtotal item_tax service_charge_amount
              gst)

/-- A rational is an exact multiple of the minor unit `0.01`. -/
def isCents (v : ℚ) : Prop := ∃ n : ℤ, v = (n : ℚ) / 100

end TaxEngine

namespace TaxEngine

lemma roundHalfUpInt_intCast (n : ℤ) : roundHalfUpInt (n : ℚ) = n := by
  unfold roundHalfUpInt
  split
  · have : -(n : ℚ) = ((-n : ℤ) : ℚ) := by push_cast; ring
    rw [this, Int.floor_int_add]
    norm_num
  · rw [Int.floor_int_add]
    norm_num

lemma isCents_round_currency (v : ℚ) : isCents (round_currency v) :=
  ⟨roundHalfUpInt (v * 100), rfl⟩

lemma isCents_zero : isCents 0 := ⟨0, by norm_num⟩

lemma isCents_add {a b : ℚ} (ha : isCents a) (hb : isCents b) :
    isCents (a + b) := by
  obtain ⟨m, rfl⟩ := ha
  obtain ⟨n, rfl⟩ := hb
  exact ⟨m + n, by push_cast; ring⟩

lemma isCents_sub {a b : ℚ} (ha : isCents a) (hb : isCents b) :
    isCents (a - b) := by
  obtain ⟨m, rfl⟩ := ha
  obtain ⟨n, rfl⟩ := hb
  exact ⟨m - n, by push_cast; ring⟩

lemma round_currency_eq_self {v : ℚ} (h : isCents v) :
    round_currency v = v := by
  obtain ⟨n, rfl⟩ := h
  unfold round_currency
  rw [div_mul_cancel₀ (b := (100 : ℚ)) (n : ℚ) (by norm_num),
      roundHalfUpInt_intCast]

end TaxEngine

namespace TaxEngine

lemma roundHalfUpInt_intCast_add (n : ℤ) (y : ℚ)
    (h : 0 ≤ n ∧ 0 ≤ y ∨ n ≤ 0 ∧ y ≤ 0) :
    roundHalfUpInt ((n : ℚ) + y) = n + roundHalfUpInt y := by
  unfold roundHalfUpInt
  rcases h with ⟨hn, hy⟩ | ⟨hn, hy⟩
  · have hn' : (0 : ℚ) ≤ (n : ℚ) := by exact_mod_cast hn
    rw [if_neg (not_lt.mpr (add_nonneg hn' hy)), if_neg (not_lt.mpr hy),
        add_assoc, Int.floor_int_add]
  · by_cases h0 : (n : ℚ) + y < 0
    · rw [if_pos h0]
      by_cases hy0 : y < 0
      · rw [if_pos hy0]
        have hrw : -((n : ℚ) + y) + 1/2 = ((-n : ℤ) : ℚ) + (-y + 1/2) := by
          push_cast; ring
        rw [hrw, Int.floor_int_add]
        ring
      · have hy' : y = 0 := le_antisymm hy (not_lt.mp hy0)
        subst hy'
        rw [if_neg hy0]
        have hrw : -((n : ℚ) + 0) + 1/2 = ((-n : ℤ) : ℚ) + 1/2 := by
          push_cast; ring
        rw [hrw, Int.floor_int_add]
        norm_num
    · have hn0 : (n : ℚ) ≤ 0 := by exact_mod_cast hn
      have heq : (n : ℚ) + y = 0 :=
        le_antisymm (add_nonpos hn0 hy) (not_lt.mp h0)
      have hy' : y = 0 := by linarith
      have hnq : (n : ℚ) = 0 := by linarith
      have hn' : n = 0 := by exact_mod_cast hnq
      subst hy'; subst hn'
      simp

lemma round_currency_cents_add (a x : ℚ) (ha : isCents a)
    (h : 0 ≤ a ∧ 0 ≤ x ∨ a ≤ 0 ∧ x ≤ 0) :
    round_currency (a + x) = a + round_currency x := by
  obtain ⟨n, rfl⟩ := ha
  unfold round_currency
  have hmul : ((n : ℚ)/100 + x) * 100 = (n : ℚ) + x * 100 := by
    field_simp
  rw [hmul]
  have h' : 0 ≤ n ∧ 0 ≤ x * 100 ∨ n ≤ 0 ∧ x * 100 ≤ 0 := by
    rcases h with ⟨h1, h2⟩ | ⟨h1, h2⟩
    · refine Or.inl ⟨?_, mul_nonneg h2 (by norm_num)⟩
      have h3 := mul_nonneg h1 (by norm_num : (0:ℚ) ≤ 100)
      rw [div_mul_cancel₀ _ (by norm_num : (100:ℚ) ≠ 0)] at h3
      exact_mod_cast h3
    · have hx : x * 100 ≤ 0 := by nlinarith
      have hn2 : n ≤ 0 := by
        have h3 := mul_le_mul_of_nonneg_right h1 (by norm_num : (0:ℚ) ≤ 100)
        rw [div_mul_cancel₀ _ (by norm_num : (100:ℚ) ≠ 0), zero_mul] at h3
        exact_mod_cast h3
      exact Or.inr ⟨hn2, hx⟩
  rw [roundHalfUpInt_intCast_add n (x * 100) h']
  push_cast; ring

lemma split_tax_sum (t : ℚ) (s : SplitType) :
    (split_tax t s).1 + (split_tax t s).2 = t := by
  cases s <;> simp [split_tax]

lemma split_tax_cents {t : ℚ} (ht : isCents t) (s : SplitType) :
    isCents (split_tax t s).1 ∧ isCents (split_tax t s).2 := by
  cases s
  · exact ⟨isCents_round_currency _,
      isCents_sub ht (isCents_round_currency _)⟩
  · exact ⟨ht, isCents_zero⟩

lemma finish_line_item_spec (tv ta lt : ℚ) (s : SplitType)
    (htv : isCents tv) (hta : isCents ta) (h : tv + ta = lt) :
    finish_line_item tv ta lt s =
      ⟨tv, ta, (split_tax ta s).1, (split_tax ta s).2, lt⟩ := by
  simp only [finish_line_item]
  rw [← h]
  simp only [sub_self, abs_zero]
  rw [if_neg (by norm_num : ¬ (1/100 : ℚ) < 0),
      round_currency_eq_self (isCents_add htv hta)]

lemma calculate_line_item_ok_shape {up : ℚ} {q : ℤ} {g : TaxGroupConfig}
    {r : LineItemTaxResult} (h : calculate_line_item up q g = .ok r) :
    ∃ tv ta lt, isCents tv ∧ isCents ta ∧ tv + ta = lt ∧
      r = finish_line_item tv ta lt g.split_type := by
  simp only [calculate_line_item] at h
  split at h
  · exact Except.noConfusion h
  split at h
  · exact Except.noConfusion h
  split at h
  · split at h
    · injection h with h
      exact ⟨_, 0, _, isCents_round_currency _, isCents_zero, add_zero _,
        h.symm⟩
    · injection h with h
      refine ⟨_, _, _, isCents_round_currency _, isCents_round_currency _,
        ?_, h.symm⟩
      rw [round_currency_eq_self
        (isCents_sub (isCents_round_currency _) (isCents_round_currency _))]
      ring
  · split at h
    · injection h with h
      exact ⟨_, 0, _, isCents_round_currency _, isCents_zero, add_zero _,
        h.symm⟩
    · injection h with h
      refine ⟨_, _, _, isCents_round_currency _, isCents_round_currency _,
        ?_, h.symm⟩
      exact (round_currency_eq_self
        (isCents_add (isCents_round_currency _) (isCents_round_currency _))).symm

end TaxEngine

namespace TaxEngine

lemma finish_bill_summary_identities (sub tax sc gst : ℚ)
    (hsub : isCents sub) (hsc : isCents sc) :
    (finish_bill_summary sub tax sc gst).total_cgst +
        (finish_bill_summary sub tax sc gst).total_sgst =
      (finish_bill_summary sub tax sc gst).total_tax ∧
    (finish_bill_summary sub tax sc gst).total_amount =
      (finish_bill_summary sub tax sc gst).subtotal +
        (finish_bill_summary sub tax sc gst).service_charge_amount +
        (finish_bill_summary sub tax sc gst).total_tax := by
  simp only [finish_bill_summary]
  constructor
  · ring
  · exact round_currency_eq_self
      (isCents_add (isCents_add hsub hsc) (isCents_round_currency _))

lemma finish_bill_summary_cents (sub tax sc gst : ℚ)
    (hsub : isCents sub) (hsc : isCents sc) :
    isCents (finish_bill_summary sub tax sc gst).subtotal ∧
    isCents (finish_bill_summary sub tax sc gst).total_tax ∧
    isCents (finish_bill_summary sub tax sc gst).total_cgst ∧
    isCents (finish_bill_summary sub tax sc gst).total_sgst ∧
    isCents (finish_bill_summary sub tax sc gst).total_amount ∧
    isCents (finish_bill_summary sub tax sc gst).service_charge_amount := by
  simp only [finish_bill_summary]
  exact ⟨hsub, isCents_round_currency _, isCents_round_currency _,
    isCents_sub (isCents_round_currency _) (isCents_round_currency _),
    isCents_round_currency _, hsc⟩

lemma generate_bill_summary_ok_shape {lines : List LineItemTaxResult}
    {sce : Bool} {scr : ℚ} {scg : Option TaxGroupConfig} {b : BillSummary}
    (h : generate_bill_summary lines sce scr scg = .ok b) :
    b = ⟨0, 0, 0, 0, 0, 0⟩ ∨
    ∃ gst, b = finish_bill_summary
        (round_currency (lines.map LineItemTaxResult.taxable_value).sum)
        (round_currency (lines.map LineItemTaxResult.tax_amount).sum)
        (if sce = true ∧ 0 < scr then
          round_currency
            (round_currency (lines.map LineItemTaxResult.taxable_value).sum *
              (scr / 100))
         else 0)
        gst := by
  simp only [generate_bill_summary] at h
  split at h
  · injection h with h
    exact Or.inl h.symm
  · split at h
    · exact Except.noConfusion h
    · injection h with h
      exact Or.inr ⟨_, h.symm⟩

end TaxEngine

namespace TaxEngine

/-- C1: for every input on which `calculate_line_item` returns a result, the
result satisfies `line_total = taxable_value + tax_amount` and
`cgst_amount + sgst_amount = tax_amount`, exactly, in both the inclusive and
exclusive branches and for both split policies. -/
theorem c1_line_additive_identity (unit_price : ℚ) (quantity : ℤ)
    (tax_group : TaxGroupConfig) (r : LineItemTaxResult)
    (h : calculate_line_item unit_price quantity tax_group = .ok r) :
    r.line_total = r.taxable_value + r.tax_amount ∧
    r.cgst_amount + r.sgst_amount = r.tax_amount := by
  obtain ⟨tv, ta, lt, htv, hta, hsum, rfl⟩ := calculate_line_item_ok_shape h
  rw [finish_line_item_spec tv ta lt _ htv hta hsum]
  exact ⟨hsum.symm, split_tax_sum ta _⟩

/-- C1 witness: spec example 1 instantiates the additive identity. -/
theorem c1_line_additive_identity_witness :
    calculate_line_item 100 2 ⟨"GST 18", 18, SplitType.GST_50_50, false⟩ =
      .ok ⟨200, 36, 18, 18, 236⟩ ∧
    ((236 : ℚ) = 200 + 36 ∧ (18 : ℚ) + 18 = 36) := by
  have h : calculate_line_item 100 2 ⟨"GST 18", 18, SplitType.GST_50_50, false⟩ =
      .ok ⟨200, 36, 18, 18, 236⟩ := by
    norm_num [calculate_line_item, finish_line_item, split_tax, round_currency,
      roundHalfUpInt]
  exact ⟨h, c1_line_additive_identity 100 2 _ _ h⟩

/-- C2: for every input on which `generate_bill_summary` returns a summary,
`total_cgst + total_sgst = total_tax` and
`total_amount = subtotal + service_charge_amount + total_tax`, exactly. -/
theorem c2_bill_additive_identity (line_items : List LineItemTaxResult)
    (sce : Bool) (scr : ℚ) (scg : Option TaxGroupConfig) (b : BillSummary)
    (h : generate_bill_summary line_items sce scr scg = .ok b) :
    b.total_cgst + b.total_sgst = b.total_tax ∧
    b.total_amount = b.subtotal + b.service_charge_amount + b.total_tax := by
  rcases generate_bill_summary_ok_shape h with rfl | ⟨gst, rfl⟩
  · norm_num
  · refine finish_bill_summary_identities _ _ _ _ (isCents_round_currency _) ?_
    split
    · exact isCents_round_currency _
    · exact isCents_zero

/-- C2 witness: spec example 4 instantiates the bill identity. -/
theorem c2_bill_additive_identity_witness :
    generate_bill_summary [⟨200, 36, 18, 18, 236⟩, ⟨100, 10, 5, 5, 110⟩]
        true 10 (some ⟨"SERVICE_CHARGE_GST", 18, SplitType.GST_50_50, false⟩) =
      .ok ⟨300, 257/5, 257/10, 257/10, 1907/5, 30⟩ ∧
    ((257/10 : ℚ) + 257/10 = 257/5 ∧ (1907/5 : ℚ) = 300 + 30 + 257/5) := by
  have h : generate_bill_summary [⟨200, 36, 18, 18, 236⟩, ⟨100, 10, 5, 5, 110⟩]
      true 10 (some ⟨"SERVICE_CHARGE_GST", 18, SplitType.GST_50_50, false⟩) =
      .ok ⟨300, 257/5, 257/10, 257/10, 1907/5, 30⟩ := by
    norm_num [generate_bill_summary, finish_bill_summary, calculate_line_item,
      finish_line_item, split_tax, round_currency, roundHalfUpInt,
      List.cons_ne_nil]
  exact ⟨h, c2_bill_additive_identity _ _ _ _ _ h⟩

/-- C7: `split_tax` under `GST_50_50` yields
`cgst = round_currency (tax / 2)` (round-half-up of the half) and
`sgst = tax - cgst`, so the halves sum exactly to the tax amount; for the
odd-cent value `0.05` this gives `(0.03, 0.02)`; under `NO_SPLIT` it yields
`(tax, 0)`. -/
theorem c7_split_tax_spec (t : ℚ) :
    split_tax t .GST_50_50 =
      (round_currency (t / 2), t - round_currency (t / 2)) ∧
    (∀ s : SplitType, (split_tax t s).1 + (split_tax t s).2 = t) ∧
    split_tax (1/20) .GST_50_50 = (3/100, 1/50) ∧
    split_tax t .NO_SPLIT = (t, 0) :=
  ⟨rfl, fun s => split_tax_sum t s,
    by norm_num [split_tax, round_currency, roundHalfUpInt], rfl⟩

/-- C8: the empty list of line items yields the all-zero summary for every
combination of service-charge arguments, and no error. -/
theorem c8_empty_bill_all_zero (sce : Bool) (scr : ℚ)
    (scg : Option TaxGroupConfig) :
    generate_bill_summary [] sce scr scg = .ok ⟨0, 0, 0, 0, 0, 0⟩ := rfl

end TaxEngine

namespace TaxEngine

/-- C3: for every non-empty list of line items on which the aggregator
succeeds, the bill-level split is re-derived from the aggregate `total_tax`
by the half/remainder rule (`total_cgst = round_currency (total_tax / 2)`,
`total_sgst = total_tax - total_cgst`); and there is a concrete input where
this aggregate split differs from the sum of the per-line split halves. -/
theorem c3_bill_balanced_resplit :
    (∀ (line_items : List LineItemTaxResult) (sce : Bool) (scr : ℚ)
        (scg : Option TaxGroupConfig) (b : BillSummary),
        line_items ≠ [] →
        generate_bill_summary line_items sce scr scg = .ok b →
        b.total_cgst = round_currency (b.total_tax / 2) ∧
        b.total_sgst = b.total_tax - b.total_cgst) ∧
    (calculate_line_item 1 1 ⟨"GST 5", 5, SplitType.GST_50_50, false⟩ =
        .ok ⟨1, 1/20, 3/100, 1/50, 21/20⟩ ∧
      generate_bill_summary
        [⟨1, 1/20, 3/100, 1/50, 21/20⟩, ⟨1, 1/20, 3/100, 1/50, 21/20⟩]
        false 0 none = .ok ⟨2, 1/10, 1/20, 1/20, 21/10, 0⟩ ∧
      (1/20 : ℚ) ≠ 3/100 + 3/100) := by
  constructor
  · intro line_items sce scr scg b hne h
    rcases generate_bill_summary_ok_shape h with rfl | ⟨gst, rfl⟩
    · constructor
      · norm_num [round_currency, roundHalfUpInt]
      · norm_num
    · exact ⟨rfl, rfl⟩
  · refine ⟨?_, ?_, by norm_num⟩
    · norm_num [calculate_line_item, finish_line_item, split_tax,
        round_currency, roundHalfUpInt]
    · norm_num [generate_bill_summary, finish_bill_summary, round_currency,
        roundHalfUpInt, List.cons_ne_nil]

/-- C3 witness: the two-line bill with per-line tax `0.05` each has
`total_tax = 0.10`, re-split into `0.05 / 0.05` at bill level. -/
theorem c3_bill_balanced_resplit_witness :
    (1/20 : ℚ) = round_currency ((1/10 : ℚ) / 2) ∧
    (1/20 : ℚ) = 1/10 - 1/20 :=
  c3_bill_balanced_resplit.1
    [⟨1, 1/20, 3/100, 1/50, 21/20⟩, ⟨1, 1/20, 3/100, 1/50, 21/20⟩] false 0 none
    ⟨2, 1/10, 1/20, 1/20, 21/10, 0⟩ (by simp)
    (by norm_num [generate_bill_summary, finish_bill_summary, round_currency,
      roundHalfUpInt, List.cons_ne_nil])

/-- C4 counterexample: with `service_charge_enabled = true`,
`service_charge_rate = 10`, no tax-group config, and the non-zero subtotal
`0.01`, the aggregator does NOT fail: the service charge
`round_currency (0.01 * 10/100) = 0` and a summary is returned. -/
theorem c4_counterexample_small_subtotal :
    generate_bill_summary [⟨1/100, 0, 0, 0, 1/100⟩] true 10 none =
      .ok ⟨1/100, 0, 0, 0, 1/100, 0⟩ ∧ (1/100 : ℚ) ≠ 0 := by
  constructor
  · norm_num [generate_bill_summary, finish_bill_summary, round_currency,
      roundHalfUpInt, List.cons_ne_nil]
  · norm_num

/-- C4 (amended): with `service_charge_enabled = true` and
`service_charge_rate = 10`, for every non-empty list of line items whose
ROUNDED service charge `round_currency (subtotal * 10/100)` is positive
(rather than merely a non-zero subtotal), the call with no service-charge
config fails with an error, and so does the call with a config marked
inclusive. -/
theorem c4_service_charge_requires_config (line_items : List LineItemTaxResult)
    (g : TaxGroupConfig) (hne : line_items ≠ [])
    (hpos : 0 < round_currency
      (round_currency (line_items.map LineItemTaxResult.taxable_value).sum *
        (10 / 100))) :
    (∃ msg, generate_bill_summary line_items true 10 none = .error msg) ∧
    (g.is_tax_inclusive = true →
      ∃ msg, generate_bill_summary line_items true 10 (some g) =
        .error msg) := by
  have hcond : (True ∧ (0:ℚ) < 10) := ⟨trivial, by norm_num⟩
  constructor
  · have h : generate_bill_summary line_items true 10 none =
        .error "Service charge tax group is required when service charge is enabled. SERVICE_CHARGE_GST tax group must be configured." := by
      simp only [generate_bill_summary, if_neg hne]
      rw [if_pos hcond, if_pos hpos]
    exact ⟨_, h⟩
  · intro hincl
    have h : generate_bill_summary line_items true 10 (some g) =
        .error "Service charge GST must be exclusive. SERVICE_CHARGE_GST tax group must have is_tax_inclusive=false" := by
      simp only [generate_bill_summary, if_neg hne]
      rw [if_pos hcond, if_pos hpos, if_pos hincl]
    exact ⟨_, h⟩

/-- C4 witness: subtotal `100` at rate `10` gives service charge `10 > 0`,
so both failure cases fire. -/
theorem c4_service_charge_requires_config_witness :
    (∃ msg, generate_bill_summary [⟨100, 0, 0, 0, 100⟩] true 10 none =
      .error msg) ∧
    ((⟨"SC", 18, SplitType.GST_50_50, true⟩ : TaxGroupConfig).is_tax_inclusive
        = true →
      ∃ msg, generate_bill_summary [⟨100, 0, 0, 0, 100⟩] true 10
        (some ⟨"SC", 18, SplitType.GST_50_50, true⟩) = .error msg) :=
  c4_service_charge_requires_config [⟨100, 0, 0, 0, 100⟩]
    ⟨"SC", 18, SplitType.GST_50_50, true⟩ (by simp)
    (by norm_num [round_currency, roundHalfUpInt])

/-- C5: `calculate_line_item` fails if and only if `quantity ≤ 0` or the
rate is negative; for every other input it returns a result (and these are
the only two failure modes). -/
theorem c5_line_validation (unit_price : ℚ) (quantity : ℤ)
    (tax_group : TaxGroupConfig) :
    ((∃ msg, calculate_line_item unit_price quantity tax_group = .error msg)
      ↔ quantity ≤ 0 ∨ tax_group.total_rate < 0) ∧
    (0 < quantity → 0 ≤ tax_group.total_rate →
      ∃ r, calculate_line_item unit_price quantity tax_group = .ok r) := by
  constructor
  · constructor
    · rintro ⟨msg, hmsg⟩
      by_contra hcon
      push_neg at hcon
      simp only [calculate_line_item] at hmsg
      rw [if_neg (not_le.mpr hcon.1), if_neg (not_lt.mpr hcon.2)] at hmsg
      split at hmsg
      · split at hmsg
        · exact Except.noConfusion hmsg
        · exact Except.noConfusion hmsg
      · split at hmsg
        · exact Except.noConfusion hmsg
        · exact Except.noConfusion hmsg
    · intro hor
      by_cases hq : quantity ≤ 0
      · have h : calculate_line_item unit_price quantity tax_group =
            .error "Quantity must be greater than 0" := by
          simp only [calculate_line_item]
          rw [if_pos hq]
        exact ⟨_, h⟩
      · have hr : tax_group.total_rate < 0 := hor.resolve_left hq
        have h : calculate_line_item unit_price quantity tax_group =
            .error "Tax rate cannot be negative" := by
          simp only [calculate_line_item]
          rw [if_neg hq, if_pos hr]
        exact ⟨_, h⟩
  · intro hq hr
    simp only [calculate_line_item]
    rw [if_neg (not_le.mpr hq), if_neg (not_lt.mpr hr)]
    by_cases hinc : tax_group.is_tax_inclusive = true
    · rw [if_pos hinc]
      by_cases h0 : tax_group.total_rate = 0
      · rw [if_pos h0]; exact ⟨_, rfl⟩
      · rw [if_neg h0]; exact ⟨_, rfl⟩
    · rw [if_neg hinc]
      by_cases h0 : tax_group.total_rate = 0
      · rw [if_pos h0]; exact ⟨_, rfl⟩
      · rw [if_neg h0]; exact ⟨_, rfl⟩

/-- C5 witness: quantity `0` fails; quantity `2` with rate `18` succeeds. -/
theorem c5_line_validation_witness :
    (∃ msg, calculate_line_item 100 0 ⟨"g", 18, SplitType.GST_50_50, false⟩ =
      .error msg) ∧
    (∃ r, calculate_line_item 100 2 ⟨"g", 18, SplitType.GST_50_50, false⟩ =
      .ok r) :=
  ⟨(c5_line_validation 100 0 ⟨"g", 18, SplitType.GST_50_50, false⟩).1.mpr
      (Or.inl (by norm_num)),
    (c5_line_validation 100 2 ⟨"g", 18, SplitType.GST_50_50, false⟩).2
      (by norm_num) (by norm_num)⟩

end TaxEngine

namespace TaxEngine

/-- C9: when the service charge is enabled but its rounded amount
`round_currency (subtotal * rate / 100)` is zero, the aggregator does not
require a service-charge tax group: it succeeds even with none supplied,
produces `service_charge_amount = 0`, and returns exactly what the
service-charge-disabled call returns. -/
theorem c9_zero_service_charge_without_config
    (line_items : List LineItemTaxResult) (scr : ℚ)
    (h : round_currency
      (round_currency (line_items.map LineItemTaxResult.taxable_value).sum *
        (scr / 100)) = 0) :
    generate_bill_summary line_items true scr none =
      generate_bill_summary line_items false 0 none ∧
    ∃ b, generate_bill_summary line_items true scr none = .ok b ∧
      b.service_charge_amount = 0 := by
  by_cases hne : line_items = []
  · subst hne
    exact ⟨rfl, ⟨0, 0, 0, 0, 0, 0⟩, rfl, rfl⟩
  · have hsc : (if True ∧ 0 < scr then
        round_currency
          (round_currency (line_items.map LineItemTaxResult.taxable_value).sum *
            (scr / 100))
      else 0) = 0 := by
      split
      · exact h
      · rfl
    have hfr : ¬ (false = true ∧ (0:ℚ) < 0) := by simp
    have hL : generate_bill_summary line_items true scr none =
        .ok (finish_bill_summary
          (round_currency (line_items.map LineItemTaxResult.taxable_value).sum)
          (round_currency (line_items.map LineItemTaxResult.tax_amount).sum)
          0 0) := by
      simp only [generate_bill_summary, if_neg hne]
      rw [hsc, if_neg (lt_irrefl (0:ℚ))]
    have hR : generate_bill_summary line_items false 0 none =
        .ok (finish_bill_summary
          (round_currency (line_items.map LineItemTaxResult.taxable_value).sum)
          (round_currency (line_items.map LineItemTaxResult.tax_amount).sum)
          0 0) := by
      simp only [generate_bill_summary, if_neg hne]
      rw [if_neg hfr, if_neg (lt_irrefl (0:ℚ))]
    exact ⟨hL.trans hR.symm, _, hL, rfl⟩

/-- C9 witness: subtotal `0.01` at rate `10` rounds to a zero service
charge, so the call without a config succeeds. -/
theorem c9_zero_service_charge_without_config_witness :
    generate_bill_summary [⟨1/100, 0, 0, 0, 1/100⟩] true 10 none =
      generate_bill_summary [⟨1/100, 0, 0, 0, 1/100⟩] false 0 none ∧
    ∃ b, generate_bill_summary [⟨1/100, 0, 0, 0, 1/100⟩] true 10 none =
      .ok b ∧ b.service_charge_amount = 0 :=
  c9_zero_service_charge_without_config [⟨1/100, 0, 0, 0, 1/100⟩] 10
    (by norm_num [round_currency, roundHalfUpInt])

/-- C10: every monetary field of every result the engine returns — the five
fields of a `LineItemTaxResult` and the six fields of a `BillSummary` — is
an exact multiple of the minor unit `0.01`. -/
theorem c10_results_quantized (unit_price : ℚ) (quantity : ℤ)
    (tax_group : TaxGroupConfig) (r : LineItemTaxResult)
    (line_items : List LineItemTaxResult) (sce : Bool) (scr : ℚ)
    (scg : Option TaxGroupConfig) (b : BillSummary)
    (hr : calculate_line_item unit_price quantity tax_group = .ok r)
    (hb : generate_bill_summary line_items sce scr scg = .ok b) :
    (isCents r.taxable_value ∧ isCents r.tax_amount ∧ isCents r.cgst_amount ∧
      isCents r.sgst_amount ∧ isCents r.line_total) ∧
    (isCents b.subtotal ∧ isCents b.total_tax ∧ isCents b.total_cgst ∧
      isCents b.total_sgst ∧ isCents b.total_amount ∧
      isCents b.service_charge_amount) := by
  constructor
  · obtain ⟨tv, ta, lt, htv, hta, hsum, rfl⟩ := calculate_line_item_ok_shape hr
    rw [finish_line_item_spec tv ta lt _ htv hta hsum]
    obtain ⟨hc1, hc2⟩ := split_tax_cents hta tax_group.split_type
    exact ⟨htv, hta, hc1, hc2, hsum ▸ isCents_add htv hta⟩
  · rcases generate_bill_summary_ok_shape hb with rfl | ⟨gst, rfl⟩
    · exact ⟨isCents_zero, isCents_zero, isCents_zero, isCents_zero,
        isCents_zero, isCents_zero⟩
    · refine finish_bill_summary_cents _ _ _ _ (isCents_round_currency _) ?_
      split
      · exact isCents_round_currency _
      · exact isCents_zero

/-- C10 witness: the fields of spec example 1 and of the two-line bill are
all multiples of `0.01`. -/
theorem c10_results_quantized_witness :
    (isCents (200:ℚ) ∧ isCents (36:ℚ) ∧ isCents (18:ℚ) ∧ isCents (18:ℚ) ∧
      isCents (236:ℚ)) ∧
    (isCents (2:ℚ) ∧ isCents (1/10:ℚ) ∧ isCents (1/20:ℚ) ∧
      isCents (1/20:ℚ) ∧ isCents (21/10:ℚ) ∧ isCents (0:ℚ)) :=
  c10_results_quantized 100 2 ⟨"GST 18", 18, SplitType.GST_50_50, false⟩
    ⟨200, 36, 18, 18, 236⟩
    [⟨1, 1/20, 3/100, 1/50, 21/20⟩, ⟨1, 1/20, 3/100, 1/50, 21/20⟩] false 0 none
    ⟨2, 1/10, 1/20, 1/20, 21/10, 0⟩
    (by norm_num [calculate_line_item, finish_line_item, split_tax,
      round_currency, roundHalfUpInt])
    (by norm_num [generate_bill_summary, finish_bill_summary, round_currency,
      roundHalfUpInt, List.cons_ne_nil])

end TaxEngine

namespace TaxEngine

lemma calculate_line_item_exclusive_unit (P R : ℚ) (nm : String)
    (s : SplitType) (hP : isCents P) (hR : 0 < R) :
    calculate_line_item P 1 ⟨nm, R, s, false⟩ =
      .ok (finish_line_item P (round_currency (P * (R / 100)))
            (P + round_currency (P * (R / 100))) s) := by
  have hPr : round_currency P = P := round_currency_eq_self hP
  simp only [calculate_line_item, Int.cast_one, mul_one, hPr]
  rw [if_neg (by norm_num : ¬ (1:ℤ) ≤ 0), if_neg (not_lt.mpr hR.le),
      if_neg Bool.false_ne_true, if_neg hR.ne',
      round_currency_eq_self (isCents_add hP (isCents_round_currency _))]

lemma calculate_line_item_inclusive_unit (U R : ℚ) (nm : String)
    (s : SplitType) (hR : 0 < R) :
    calculate_line_item U 1 ⟨nm, R, s, true⟩ =
      .ok (finish_line_item
            (round_currency (round_currency U / (1 + R / 100)))
            (round_currency U -
              round_currency (round_currency U / (1 + R / 100)))
            (round_currency U) s) := by
  simp only [calculate_line_item, Int.cast_one, mul_one,
    round_currency_eq_self (isCents_round_currency U)]
  rw [if_neg (by norm_num : ¬ (1:ℤ) ≤ 0), if_neg (not_lt.mpr hR.le),
      if_pos trivial, if_neg hR.ne',
      round_currency_eq_self
        (isCents_sub (isCents_round_currency U) (isCents_round_currency _))]

/-- C6 counterexample: exclusive price `1.00` at rate `0.3` with quantity
`1000` gives `line_total = 1003.00`, while the same line re-expressed
inclusive with unit price `1.00 * (1 + 0.3/100) = 1.003` (which rounds to
`1.00`) gives `line_total = 1000.00` — a difference of `3.00`, far more
than one minor unit. -/
theorem c6_counterexample_large_quantity :
    calculate_line_item 1 1000 ⟨"g", 3/10, SplitType.GST_50_50, false⟩ =
      .ok ⟨1000, 3, 3/2, 3/2, 1003⟩ ∧
    calculate_line_item (1 * (1 + (3/10) / 100)) 1000
      ⟨"g", 3/10, SplitType.GST_50_50, true⟩ =
      .ok ⟨99701/100, 299/100, 3/2, 149/100, 1000⟩ ∧
    ¬ |(1003:ℚ) - 1000| ≤ 1/100 := by
  refine ⟨?_, ?_, by norm_num⟩
  · norm_num [calculate_line_item, finish_line_item, split_tax,
      round_currency, roundHalfUpInt]
  · norm_num [calculate_line_item, finish_line_item, split_tax,
      round_currency, roundHalfUpInt]

/-- C6 (amended): restricted to quantity `1` and a unit price that is an
exact multiple of the minor unit, a line built exclusive with price `P` and
rate `R > 0` and the same line re-expressed inclusive with unit price
`P * (1 + R/100)` produce `line_total` values within one minor unit of each
other (quantities greater than 1, or prices not on the minor-unit grid,
amplify the rounding of the inclusive unit price and break the bound). -/
theorem c6_round_trip_unit_quantity (P R : ℚ) (s : SplitType)
    (nm1 nm2 : String) (r_ex r_inc : LineItemTaxResult)
    (hP : isCents P) (hR : 0 < R)
    (hex : calculate_line_item P 1 ⟨nm1, R, s, false⟩ = .ok r_ex)
    (hinc : calculate_line_item (P * (1 + R / 100)) 1 ⟨nm2, R, s, true⟩ =
      .ok r_inc) :
    |r_ex.line_total - r_inc.line_total| ≤ 1/100 := by
  rw [calculate_line_item_exclusive_unit P R nm1 s hP hR] at hex
  rw [calculate_line_item_inclusive_unit (P * (1 + R / 100)) R nm2 s hR]
    at hinc
  injection hex with hex
  injection hinc with hinc
  subst hex
  subst hinc
  have hta : isCents (round_currency (P * (R / 100))) :=
    isCents_round_currency _
  have hU : round_currency (P * (1 + R / 100)) =
      P + round_currency (P * (R / 100)) := by
    have hsplit : P * (1 + R / 100) = P + P * (R / 100) := by ring
    rw [hsplit]
    rcases le_or_lt 0 P with hp | hp
    · exact round_currency_cents_add P (P * (R / 100)) hP
        (Or.inl ⟨hp, mul_nonneg hp (by positivity)⟩)
    · refine round_currency_cents_add P (P * (R / 100)) hP
        (Or.inr ⟨hp.le, ?_⟩)
      have h100 : (0:ℚ) ≤ R / 100 := by positivity
      nlinarith
  rw [hU]
  rw [finish_line_item_spec P (round_currency (P * (R / 100)))
      (P + round_currency (P * (R / 100))) s hP hta rfl]
  rw [finish_line_item_spec
      (round_currency ((P + round_currency (P * (R / 100))) / (1 + R / 100)))
      ((P + round_currency (P * (R / 100))) -
        round_currency ((P + round_currency (P * (R / 100))) / (1 + R / 100)))
      (P + round_currency (P * (R / 100))) s
      (isCents_round_currency _)
      (isCents_sub (isCents_add hP hta) (isCents_round_currency _))
      (by ring)]
  norm_num

/-- C6 witness: spec example pair — exclusive `100 @ 18%` and inclusive
`118 @ 18%` both give `line_total = 118.00`. -/
theorem c6_round_trip_unit_quantity_witness :
    |(118:ℚ) - 118| ≤ 1/100 :=
  c6_round_trip_unit_quantity 100 18 SplitType.GST_50_50 "a" "b"
    ⟨100, 18, 9, 9, 118⟩ ⟨100, 18, 9, 9, 118⟩
    ⟨10000, by norm_num⟩ (by norm_num)
    (by norm_num [calculate_line_item, finish_line_item, split_tax,
      round_currency, roundHalfUpInt])
    (by norm_num [calculate_line_item, finish_line_item, split_tax,
      round_currency, roundHalfUpInt])

end TaxEngine
